import Mathlib

set_option maxRecDepth 100000

/-!
Shallow embedding of the Verbotic RAG core: the "process-document" ingestion
pipeline (supabase edge function), the `match_document_chunks` SQL similarity
search, the rag-chat query handler, the chat-search handler, and the
gemini-realtime knowledge-source resolution.  Every definition is translated
from the repository source; theorems below settle the specification claims.
-/

namespace Verbotic

/-! ### Chunker (process-document, `for (let i = 0; i < text.length; i += chunkSize)`) -/

/-- The configured chunk size: `const chunkSize = 1000;`. -/
def chunkSize : Nat := 1000

/-- The chunking loop of process-document:
`for (let i = 0; i < text.length; i += chunkSize) chunks.push(text.slice(i, i + chunkSize))`.
`fuel` only bounds the iteration count (each iteration advances `i` by
`chunkSize ≥ 1`, so `text.length` iterations always suffice); it does not
change the computed value. -/
def chunkLoopF : Nat → List Char → Nat → List (List Char)
  | 0, _, _ => []
  | fuel + 1, text, i =>
    if i < text.length then
      ((text.drop i).take chunkSize) :: chunkLoopF fuel text (i + chunkSize)
    else []

/-- The chunk list produced by process-document for a given text. -/
def chunkText (text : List Char) : List (List Char) :=
  chunkLoopF text.length text 0

theorem chunkLoopF_flatten (fuel : Nat) :
    ∀ (text : List Char) (i : Nat), text.length - i ≤ fuel →
      (chunkLoopF fuel text i).flatten = text.drop i := by
  induction fuel with
  | zero =>
    intro text i h
    simp only [chunkLoopF, List.flatten_nil]
    rw [List.drop_eq_nil_of_le (by omega)]
  | succ fuel ih =>
    intro text i h
    by_cases hi : i < text.length
    · have hrec := ih text (i + chunkSize) (by simp only [chunkSize] at *; omega)
      simp only [chunkLoopF, if_pos hi, List.flatten_cons, hrec]
      rw [← List.drop_drop]
      exact List.take_append_drop chunkSize (text.drop i)
    · simp only [chunkLoopF, if_neg hi, List.flatten_nil]
      rw [List.drop_eq_nil_of_le (by omega)]

theorem chunkLoopF_length (fuel : Nat) :
    ∀ (text : List Char) (i : Nat), text.length - i ≤ fuel →
      (chunkLoopF fuel text i).length = ((text.length - i) + (chunkSize - 1)) / chunkSize := by
  induction fuel with
  | zero =>
    intro text i h
    simp only [chunkLoopF, List.length_nil, chunkSize]
    omega
  | succ fuel ih =>
    intro text i h
    by_cases hi : i < text.length
    · have hrec := ih text (i + chunkSize) (by simp only [chunkSize] at *; omega)
      simp only [chunkLoopF, if_pos hi, List.length_cons, hrec, chunkSize] at *
      omega
    · simp only [chunkLoopF, if_neg hi, List.length_nil, chunkSize]
      omega

theorem chunkLoopF_getElem (fuel : Nat) :
    ∀ (text : List Char) (i k : Nat), text.length - i ≤ fuel →
      i + chunkSize * k < text.length →
      (chunkLoopF fuel text i)[k]? =
        some ((text.drop (i + chunkSize * k)).take chunkSize) := by
  induction fuel with
  | zero =>
    intro text i k h hk
    simp only [chunkSize] at hk
    omega
  | succ fuel ih =>
    intro text i k h hk
    have hi : i < text.length := by simp only [chunkSize] at hk; omega
    simp only [chunkLoopF, if_pos hi]
    cases k with
    | zero => simp
    | succ k =>
      have hrec := ih text (i + chunkSize) k
        (by simp only [chunkSize] at *; omega)
        (by simp only [chunkSize] at *; omega)
      simp only [List.getElem?_cons_succ, hrec]
      congr 2
      ring_nf

theorem chunkText_flatten (text : List Char) : (chunkText text).flatten = text := by
  simpa using chunkLoopF_flatten text.length text 0 (by omega)

theorem chunkText_length (text : List Char) :
    (chunkText text).length = (text.length + (chunkSize - 1)) / chunkSize := by
  simpa using chunkLoopF_length text.length text 0 (by omega)

theorem chunkText_getElem (text : List Char) (k : Nat) (hk : chunkSize * k < text.length) :
    (chunkText text)[k]? = some ((text.drop (chunkSize * k)).take chunkSize) := by
  simpa using chunkLoopF_getElem text.length text 0 k (by omega) (by simpa using hk)

/-- C2: with chunk size `C = 1000`, the chunker produces `ceil(L/C)` chunks,
chunk `k` is `text[k*C : min((k+1)*C, L)]` (drop `k*C`, take `C`), the chunks
concatenate back to the original text, and empty input yields zero chunks. -/
theorem C2_chunker_fixed_windows (text : List Char) :
    chunkSize = 1000 ∧
    (chunkText text).length = (text.length + (chunkSize - 1)) / chunkSize ∧
    (∀ k, chunkSize * k < text.length →
      (chunkText text)[k]? = some ((text.drop (chunkSize * k)).take chunkSize)) ∧
    (chunkText text).flatten = text ∧
    (text = [] → chunkText text = []) := by
  refine ⟨rfl, chunkText_length text, fun k hk => chunkText_getElem text k hk,
    chunkText_flatten text, ?_⟩
  intro h
  subst h
  rfl

/-- Witness for C2 at the concrete text `"ab"`. -/
theorem C2_chunker_fixed_windows_witness :
    chunkSize * 0 < ("ab".data).length ∧
    (chunkText "ab".data)[0]? = some ((("ab".data).drop (chunkSize * 0)).take chunkSize) ∧
    (chunkText "ab".data).flatten = "ab".data ∧
    (chunkText "ab".data).length = (("ab".data).length + (chunkSize - 1)) / chunkSize :=
  ⟨by decide, (C2_chunker_fixed_windows "ab".data).2.2.1 0 (by decide),
    (C2_chunker_fixed_windows "ab".data).2.2.2.1,
    (C2_chunker_fixed_windows "ab".data).2.1⟩

/-! ### Ingestion pipeline (process-document edge function) -/

/-- Document lifecycle status. -/
inductive DocStatus
  | processing
  | completed
  | failed
deriving DecidableEq, Repr

/-- A row inserted into `document_chunks`
(`document_id`, `content`, `metadata.chunk_index`; the embedding vector itself
is produced by the external service and not modelled). -/
structure InsertedChunk where
  document_id : Nat
  content : List Char
  chunk_index : Nat
deriving DecidableEq, Repr

/-- External world of one process-document invocation: what the database,
storage, file parsers and the embedding service return. -/
structure IngestEnv where
  document_id : Nat
  /-- the `documents` row was found -/
  docFound : Bool
  /-- error message of `supabase.storage.download`, when it failed -/
  downloadErr : Option String
  /-- the downloaded `fileData` was non-null -/
  filePresent : Bool
  /-- the `document.mime_type` column -/
  mime : String
  /-- the lowercased file path, `document.file_path.toLowerCase()` -/
  fileName : String
  /-- what `fileData.text()` decodes to -/
  rawText : String
  /-- trimmed mammoth DOCX text; `none` means the parser threw -/
  docxText : Option String
  /-- PDF text after join/trim; `none` means the parser threw -/
  pdfText : Option String
  /-- the value of `Deno.env.get("OPENAI_API_KEY")` -/
  apiKey : Option String
  /-- whether the j-th per-chunk embedding HTTP call returns ok -/
  embedOk : Nat → Bool

def docxMime : String :=
  "application/vnd.openxmlformats-officedocument.wordprocessingml.document"

/-- JS `String.prototype.endsWith`, modelled over the character list. -/
def strEndsWith (s suffix : String) : Bool :=
  suffix.data.isSuffixOf s.data

/-- JS `String.prototype.trim` (leading/trailing whitespace stripped). -/
def strTrim (s : String) : String :=
  String.mk (((s.data.dropWhile Char.isWhitespace).reverse.dropWhile
    Char.isWhitespace).reverse)

/-- JS `String.prototype.includes` with a one-character needle. -/
def strContainsChar (s : String) (c : Char) : Bool :=
  s.data.contains c

/-- Text extraction dispatch of process-document (lines 57-113 of the
function): plain text and CSV decode directly, DOCX/PDF go through a parser
and reject empty results, anything else is decoded as text as a fallback. -/
def extractText (env : IngestEnv) : Except String String :=
  if env.mime = "text/plain" then .ok env.rawText
  else if env.mime = "text/csv" ∨ strEndsWith env.fileName ".csv" then .ok env.rawText
  else if env.mime = docxMime ∨ strEndsWith env.fileName ".docx" then
    match env.docxText with
    | none => .error "Failed to parse DOCX: Unknown error"
    | some t =>
      if t = "" then .error "Failed to parse DOCX: No text could be extracted from DOCX"
      else .ok t
  else if env.mime = "application/pdf" ∨ strEndsWith env.fileName ".pdf" then
    match env.pdfText with
    | none => .error "Failed to parse PDF: Unknown error"
    | some t =>
      if t = "" then
        .error "Failed to parse PDF: No text could be extracted from PDF - the document may be image-based or encrypted"
      else .ok t
  else .ok env.rawText

/-- The OPENAI_API_KEY validation of process-document (missing/empty, then
embedded newline/carriage-return characters). -/
def checkApiKey : Option String → Except String String
  | none => .error "OPENAI_API_KEY is not configured or is empty"
  | some k =>
    if strTrim k = "" then .error "OPENAI_API_KEY is not configured or is empty"
    else if strContainsChar k (Char.ofNat 10) ∨ strContainsChar k (Char.ofNat 13) then
      .error "OPENAI_API_KEY contains invalid characters"
    else .ok k

/-- `Math.round((processedChunks / chunks.length) * 100)` over exact
rationals: round-half-up of `100 * p / total`. -/
def jsRound100 (p total : Nat) : Nat :=
  (200 * p + total) / (2 * total)

/-- Result of the per-chunk embedding loop. -/
structure EmbedResult where
  processed : Nat
  inserted : List InsertedChunk
  progressUpdates : List Nat
deriving DecidableEq, Repr

/-- The embedding loop of process-document: for each chunk (the j-th HTTP
call), a failed embedding call is skipped with `continue`; on success the
chunk is inserted with `metadata.chunk_index = processedChunks`,
`processedChunks` is incremented and a progress update is issued. -/
def embedLoop (ok : Nat → Bool) (docId total : Nat) :
    List (List Char) → Nat → Nat → EmbedResult
  | [], _, p => ⟨p, [], []⟩
  | c :: rest, j, p =>
    if ok j then
      let r := embedLoop ok docId total rest (j + 1) (p + 1)
      ⟨r.processed, ⟨docId, c, p⟩ :: r.inserted,
        jsRound100 (p + 1) total :: r.progressUpdates⟩
    else
      embedLoop ok docId total rest (j + 1) p

/-- Observable outcome of one process-document run: the final `documents`
row update, all progress updates issued inside the loop, the rows inserted
into `document_chunks`, and the HTTP response. -/
structure ProcessOutcome where
  status : DocStatus
  progressUpdates : List Nat
  finalProgress : Option Nat
  inserted : List InsertedChunk
  error_message : Option String
  httpStatus : Nat
  chunks_processed : Option Nat
deriving DecidableEq, Repr

/-- The catch block of process-document: the document is marked `failed` with
the triggering error's message; nothing else was written. -/
def failOutcome (msg : String) : ProcessOutcome :=
  ⟨.failed, [], none, [], some msg, 500, none⟩

/-- The process-document handler: load document, download, extract, chunk,
validate the embedding credential, run the embedding loop, then mark the
document `completed` with `processing_progress = 100`. -/
def processDocument (env : IngestEnv) : ProcessOutcome :=
  if env.docFound = false then failOutcome "Document not found"
  else
    match env.downloadErr with
    | some m => failOutcome ("Failed to download document: " ++ m)
    | none =>
      if env.filePresent = false then failOutcome "File data is empty"
      else
        match extractText env with
        | .error e => failOutcome e
        | .ok text =>
          let chunks := chunkText text.data
          match checkApiKey env.apiKey with
          | .error e => failOutcome e
          | .ok _ =>
            let r := embedLoop env.embedOk env.document_id chunks.length chunks 0 0
            ⟨.completed, r.progressUpdates, some 100, r.inserted, none, 200,
              some r.processed⟩

theorem countP_add_countP_not (ok : Nat → Bool) (l : List Nat) :
    l.countP ok + l.countP (fun j => ! ok j) = l.length := by
  induction l with
  | nil => simp
  | cons a l ih =>
    simp only [List.countP_cons, List.length_cons]
    cases h : ok a <;> simp [h] <;> omega

theorem embedLoop_inserted_length (ok : Nat → Bool) (d total : Nat) :
    ∀ (chunks : List (List Char)) (j p : Nat),
      (embedLoop ok d total chunks j p).inserted.length
        = (List.range' j chunks.length).countP ok := by
  intro chunks
  induction chunks with
  | nil => intro j p; rfl
  | cons c rest ih =>
    intro j p
    simp only [embedLoop, List.length_cons, List.range'_succ, List.countP_cons]
    cases h : ok j <;> simp [h, ih]

theorem embedLoop_indices (ok : Nat → Bool) (d total : Nat) :
    ∀ (chunks : List (List Char)) (j p : Nat),
      (embedLoop ok d total chunks j p).inserted.map (fun c => c.chunk_index)
        = List.range' p (embedLoop ok d total chunks j p).inserted.length := by
  intro chunks
  induction chunks with
  | nil => intro j p; rfl
  | cons c rest ih =>
    intro j p
    simp only [embedLoop]
    cases h : ok j
    · simp [h, ih]
    · simp only [h, if_pos rfl, List.map_cons, List.length_cons]
      simp [ih, List.range'_succ]

theorem embedLoop_all_ok (ok : Nat → Bool) (d total : Nat) :
    ∀ (chunks : List (List Char)) (j p : Nat),
      (∀ m, m < chunks.length → ok (j + m) = true) →
      (embedLoop ok d total chunks j p).inserted.map (fun c => c.content) = chunks := by
  intro chunks
  induction chunks with
  | nil => intro j p _; rfl
  | cons c rest ih =>
    intro j p hall
    have h0 : ok j = true := by simpa using hall 0 (by simp)
    simp only [embedLoop, h0, if_pos rfl, List.map_cons]
    refine congrArg (c :: ·) (ih (j + 1) (p + 1) ?_)
    intro m hm
    have hx : j + 1 + m = j + (m + 1) := by omega
    rw [hx]
    exact hall (m + 1) (by simp only [List.length_cons]; omega)

/-- C4: an ingestion run over `N > 1` chunks with exactly one failed
per-chunk embedding call skips that chunk, finishes with status `completed`
and `processing_progress = 100`, and persists exactly `N - 1` chunks. -/
theorem C4_one_failure_still_completes (env : IngestEnv) (t : String)
    (h1 : env.docFound = true) (h2 : env.downloadErr = none)
    (h3 : env.filePresent = true) (h4 : extractText env = .ok t)
    (k : String) (h5 : checkApiKey env.apiKey = .ok k)
    (hN : 1 < (chunkText t.data).length)
    (hfail : ((List.range (chunkText t.data).length).filter
      (fun j => ! env.embedOk j)).length = 1) :
    (processDocument env).status = .completed ∧
    (processDocument env).finalProgress = some 100 ∧
    (processDocument env).inserted.length = (chunkText t.data).length - 1 := by
  simp only [processDocument, h1, h2, h3, h4, h5, Bool.true_eq_false, if_false]
  refine ⟨trivial, trivial, ?_⟩
  have hlen := embedLoop_inserted_length env.embedOk env.document_id
    (chunkText t.data).length (chunkText t.data) 0 0
  have hcnt := countP_add_countP_not env.embedOk (List.range' 0 (chunkText t.data).length)
  have hfilter : (List.range' 0 (chunkText t.data).length).countP (fun j => ! env.embedOk j) = 1 := by
    rw [List.countP_eq_length_filter, ← List.range_eq_range']
    exact hfail
  simp only [List.length_range'] at hcnt
  simp only [hlen, hfilter] at *
  omega

/-- C10: when the OPENAI_API_KEY is missing or blank, process-document fails
before the embedding loop: the document goes straight to `failed` with the
configuration error message, no chunk row is inserted and no progress update
is ever issued. -/
theorem C10_missing_key_fails_before_loop (env : IngestEnv) (t : String)
    (h1 : env.docFound = true) (h2 : env.downloadErr = none)
    (h3 : env.filePresent = true) (h4 : extractText env = .ok t)
    (h5 : env.apiKey = none ∨ ∃ k, env.apiKey = some k ∧ strTrim k = "") :
    processDocument env =
      ⟨.failed, [], none, [], some "OPENAI_API_KEY is not configured or is empty",
        500, none⟩ := by
  have hk : checkApiKey env.apiKey = .error "OPENAI_API_KEY is not configured or is empty" := by
    rcases h5 with h5 | ⟨k, hk, htrim⟩
    · rw [h5]; rfl
    · rw [hk]; simp [checkApiKey, htrim]
  simp only [processDocument, h1, h2, h3, h4, hk]
  rfl

/-- A 1001-character text: exactly two chunks (1000 × `a`, then `b`). -/
def bigText : String := String.mk (List.replicate 1000 'a' ++ ['b'])

/-- Concrete ingestion run: plain-text, two chunks, the first embedding call
fails and the second succeeds. -/
def envC4 : IngestEnv :=
  ⟨7, true, none, true, "text/plain", "doc.txt", bigText, none, none,
    some "sk-test", fun j => ! (j == 0)⟩

/-- Witness for C4 at `envC4`. -/
theorem C4_one_failure_still_completes_witness :
    1 < (chunkText bigText.data).length ∧
    ((List.range (chunkText bigText.data).length).filter
      (fun j => ! envC4.embedOk j)).length = 1 ∧
    (processDocument envC4).status = .completed ∧
    (processDocument envC4).finalProgress = some 100 ∧
    (processDocument envC4).inserted.length = (chunkText bigText.data).length - 1 :=
  ⟨by decide, by decide,
    (C4_one_failure_still_completes envC4 bigText rfl rfl rfl rfl "sk-test" rfl
      (by decide) (by decide)).1,
    (C4_one_failure_still_completes envC4 bigText rfl rfl rfl rfl "sk-test" rfl
      (by decide) (by decide)).2.1,
    (C4_one_failure_still_completes envC4 bigText rfl rfl rfl rfl "sk-test" rfl
      (by decide) (by decide)).2.2⟩

/-- Concrete ingestion run with the OPENAI_API_KEY unset. -/
def envC10 : IngestEnv :=
  ⟨3, true, none, true, "text/plain", "x.txt", "hello", none, none, none,
    fun _ => true⟩

/-- Witness for C10 at `envC10`. -/
theorem C10_missing_key_fails_before_loop_witness :
    envC10.apiKey = none ∧
    processDocument envC10 =
      ⟨.failed, [], none, [], some "OPENAI_API_KEY is not configured or is empty",
        500, none⟩ :=
  ⟨rfl, C10_missing_key_fails_before_loop envC10 "hello" rfl rfl rfl rfl (Or.inl rfl)⟩

/-- Concrete ingestion run over an empty plain-text file. -/
def envC3 : IngestEnv :=
  ⟨1, true, none, true, "text/plain", "empty.txt", "", none, none,
    some "sk-test", fun _ => true⟩

/-- C3 counterexample: a plain-text document whose extracted text is empty
reaches status `completed` (with zero chunks), not `failed`. -/
theorem C3_counterexample_empty_plain_text_completes :
    processDocument envC3 = ⟨.completed, [], some 100, [], none, 200, some 0⟩ ∧
    (processDocument envC3).status ≠ .failed := by
  constructor <;> decide

/-- C3 amended: only DOCX and PDF documents with zero extractable text are
marked `failed`; a plain-text document with empty text instead completes with
zero chunks. -/
theorem C3_empty_text_failed_only_for_docx_pdf (env : IngestEnv)
    (h1 : env.docFound = true) (h2 : env.downloadErr = none)
    (h3 : env.filePresent = true) :
    ((env.mime ≠ "text/plain") →
      ¬(env.mime = "text/csv" ∨ strEndsWith env.fileName ".csv") →
      (env.mime = docxMime ∨ strEndsWith env.fileName ".docx") →
      env.docxText = some "" →
      (processDocument env).status = .failed) ∧
    ((env.mime ≠ "text/plain") →
      ¬(env.mime = "text/csv" ∨ strEndsWith env.fileName ".csv") →
      ¬(env.mime = docxMime ∨ strEndsWith env.fileName ".docx") →
      (env.mime = "application/pdf" ∨ strEndsWith env.fileName ".pdf") →
      env.pdfText = some "" →
      (processDocument env).status = .failed) ∧
    (env.mime = "text/plain" → env.rawText = "" →
      ∀ k, checkApiKey env.apiKey = .ok k →
      (processDocument env).status = .completed ∧
      (processDocument env).inserted = []) := by
  refine ⟨?_, ?_, ?_⟩
  · intro ha hb hc hd
    have hex : extractText env
        = .error "Failed to parse DOCX: No text could be extracted from DOCX" := by
      simp [extractText, ha, hb, hc, hd]
    simp [processDocument, h1, h2, h3, hex, failOutcome]
  · intro ha hb hc hd he
    have hex : extractText env
        = .error "Failed to parse PDF: No text could be extracted from PDF - the document may be image-based or encrypted" := by
      simp [extractText, ha, hb, hc, hd, he]
    simp [processDocument, h1, h2, h3, hex, failOutcome]
  · intro ha hb k hk
    have hex : extractText env = .ok "" := by
      simp [extractText, ha, hb]
    simp [processDocument, h1, h2, h3, hex, hk, chunkText, chunkLoopF, embedLoop]

/-- Concrete ingestion run over an empty DOCX document. -/
def envC3b : IngestEnv :=
  ⟨2, true, none, true, docxMime, "f.docx", "", some "", none,
    some "sk-test", fun _ => true⟩

/-- Witness for the amended C3 at `envC3b`. -/
theorem C3_empty_text_failed_only_for_docx_pdf_witness :
    envC3b.docxText = some "" ∧ (processDocument envC3b).status = .failed :=
  ⟨rfl, (C3_empty_text_failed_only_for_docx_pdf envC3b rfl rfl rfl).1
    (by decide) (by decide) (Or.inl rfl) rfl⟩

/-- Concrete ingestion run where the first chunk's embedding fails and the
second succeeds. -/
def envC5 : IngestEnv :=
  ⟨7, true, none, true, "text/plain", "doc.txt", bigText, none, none,
    some "sk-test", fun j => j == 1⟩

/-- C5 counterexample: the persisted chunk stores `chunk_index = 0`, but its
content is the document's chunk at position 1 (position 0 was skipped), so the
stored index is not the position within the document's chunk sequence. -/
theorem C5_counterexample_skipped_chunk_shifts_index :
    (processDocument envC5).inserted = [⟨7, ['b'], 0⟩] ∧
    (chunkText bigText.data)[1]? = some ['b'] ∧
    (chunkText bigText.data)[0]? ≠ some ['b'] := by
  refine ⟨?_, ?_, ?_⟩ <;> decide

/-- C5 amended: persisted `chunk_index` values are `0..m-1` in insertion
order (the position among successfully embedded chunks); when no chunk is
skipped they coincide with the document's chunk sequence. -/
theorem C5_chunk_index_counts_persisted (env : IngestEnv) (t : String)
    (h1 : env.docFound = true) (h2 : env.downloadErr = none)
    (h3 : env.filePresent = true) (h4 : extractText env = .ok t)
    (k : String) (h5 : checkApiKey env.apiKey = .ok k) :
    ((processDocument env).inserted.map (fun c => c.chunk_index)
      = List.range (processDocument env).inserted.length) ∧
    ((∀ m, m < (chunkText t.data).length → env.embedOk m = true) →
      (processDocument env).inserted.map (fun c => c.content) = chunkText t.data) := by
  simp only [processDocument, h1, h2, h3, h4, h5, Bool.true_eq_false, if_false]
  constructor
  · rw [embedLoop_indices, ← List.range_eq_range']
  · intro hall
    refine embedLoop_all_ok env.embedOk env.document_id (chunkText t.data).length
      (chunkText t.data) 0 0 ?_
    intro m hm
    simpa using hall m hm

/-- Witness for the amended C5 at `envC4` (one skip) and at an all-success
variant of it. -/
theorem C5_chunk_index_counts_persisted_witness :
    (processDocument envC4).inserted.map (fun c => c.chunk_index)
      = List.range (processDocument envC4).inserted.length :=
  (C5_chunk_index_counts_persisted envC4 bigText rfl rfl rfl rfl "sk-test" rfl).1

/-! ### Similarity search (`match_document_chunks` SQL function) -/

/-- A stored `document_chunks` row. -/
structure ChunkRow where
  id : Nat
  document_id : Nat
  content : String
  embedding : List ℚ
deriving DecidableEq, Repr

/-- A row returned by `match_document_chunks`. -/
structure MatchRow where
  id : Nat
  document_id : Nat
  content : String
  similarity : ℚ
deriving DecidableEq, Repr

/-- Stable insertion of one element into a sorted list (used to model SQL
`ORDER BY`). -/
def insertSorted (le : α → α → Bool) (a : α) : List α → List α
  | [] => [a]
  | b :: bs => if le a b then a :: b :: bs else b :: insertSorted le a bs

/-- Stable insertion sort, the model of SQL `ORDER BY`. -/
def sortByKey (le : α → α → Bool) : List α → List α
  | [] => []
  | a :: as => insertSorted le a (sortByKey le as)

/-- The `match_document_chunks` SQL function: keep rows whose `document_id`
is in `filter_document_ids` (`= ANY(...)`) and whose similarity `1 - dist`
exceeds `match_threshold`, order ascending by distance to the query
embedding, cap at `match_count`.  The pgvector cosine-distance operator is
external to the repository, so the distance is a parameter `dist`. -/
def match_document_chunks (dist : List ℚ → List ℚ → ℚ)
    (query_embedding : List ℚ) (match_threshold : ℚ) (match_count : Nat)
    (filter_document_ids : List Nat) (rows : List ChunkRow) : List MatchRow :=
  ((sortByKey
      (fun a b => decide (dist a.embedding query_embedding ≤ dist b.embedding query_embedding))
      (rows.filter (fun r =>
        decide (r.document_id ∈ filter_document_ids) &&
        decide (1 - dist r.embedding query_embedding > match_threshold)))).map
    (fun r => ⟨r.id, r.document_id, r.content,
      1 - dist r.embedding query_embedding⟩)).take match_count

/-- The gemini-realtime chunk fetch:
`from("document_chunks").select(...).in("document_id", documentIds).limit(100)`. -/
def geminiFetchChunks (rows : List ChunkRow) (documentIds : List Nat) : List ChunkRow :=
  (rows.filter (fun r => decide (r.document_id ∈ documentIds))).take 100

theorem mem_insertSorted (le : α → α → Bool) (a x : α) :
    ∀ l : List α, x ∈ insertSorted le a l ↔ x = a ∨ x ∈ l := by
  intro l
  induction l with
  | nil => simp [insertSorted]
  | cons b bs ih =>
    simp only [insertSorted]
    by_cases hle : le a b
    · simp [hle]
    · simp only [hle, Bool.false_eq_true, if_false, List.mem_cons, ih]
      tauto

theorem mem_sortByKey (le : α → α → Bool) (x : α) :
    ∀ l : List α, x ∈ sortByKey le l ↔ x ∈ l := by
  intro l
  induction l with
  | nil => simp [sortByKey]
  | cons a as ih => simp [sortByKey, mem_insertSorted, ih]

/-- C1: a similarity-search result row always belongs to a document of the
allowed set, both for the `match_document_chunks` SQL function and for the
gemini-realtime chunk fetch. -/
theorem C1_search_respects_document_filter (dist : List ℚ → List ℚ → ℚ)
    (q : List ℚ) (threshold : ℚ) (cnt : Nat) (ids : List Nat)
    (rows : List ChunkRow) :
    (∀ r ∈ match_document_chunks dist q threshold cnt ids rows,
      r.document_id ∈ ids) ∧
    (∀ r ∈ geminiFetchChunks rows ids, r.document_id ∈ ids) := by
  constructor
  · intro r hr
    have hr' := List.mem_of_mem_take hr
    rcases List.mem_map.mp hr' with ⟨s, hs, hmap⟩
    have hs' := (mem_sortByKey _ s _).mp hs
    have hcond := (List.mem_filter.mp hs').2
    simp only [Bool.and_eq_true, decide_eq_true_eq] at hcond
    rw [← hmap]
    exact hcond.1
  · intro r hr
    have hr' := List.mem_of_mem_take hr
    have hcond := (List.mem_filter.mp hr').2
    simpa using hcond

/-- Witness for C1 at a two-row store with a constant-zero distance. -/
theorem C1_search_respects_document_filter_witness :
    (⟨1, 5, "hello", 1⟩ : MatchRow) ∈
      match_document_chunks (fun _ _ => 0) [] (1/2 : ℚ) 5 [5]
        [⟨1, 5, "hello", []⟩, ⟨2, 6, "other", []⟩] ∧
    (⟨1, 5, "hello", 1⟩ : MatchRow).document_id ∈ [5] := by
  have hmem : (⟨1, 5, "hello", 1⟩ : MatchRow) ∈
      match_document_chunks (fun _ _ => 0) [] (1/2 : ℚ) 5 [5]
        [⟨1, 5, "hello", []⟩, ⟨2, 6, "other", []⟩] := by
    norm_num [match_document_chunks, sortByKey, insertSorted]
  exact ⟨hmem,
    (C1_search_respects_document_filter (fun _ _ => 0) [] (1/2 : ℚ) 5 [5]
        [⟨1, 5, "hello", []⟩, ⟨2, 6, "other", []⟩]).1
      ⟨1, 5, "hello", 1⟩ hmem⟩

/-! ### rag-chat, chat-search and gemini-realtime query handlers -/

/-- An `agents` row (fields read by the handlers). -/
structure Agent where
  system_prompt : String
  rag_enabled : Bool
  document_ids : List Nat
deriving DecidableEq, Repr

/-- A `contexts` row (fields read by the handlers). -/
structure ContextRow where
  system_prompt : Option String
  document_ids : List Nat
deriving DecidableEq, Repr

/-- A `conversations` row (fields read by the handlers). -/
structure Conversation where
  agent_id : Option Nat
  context_id : Option Nat
  rag_enabled : Bool
deriving DecidableEq, Repr

/-- A `messages` row (fields read by the handlers). -/
structure Message where
  role : String
  content : String
deriving DecidableEq, Repr

/-- Database lookups the query handlers perform.  `userCompletedDocs` is the
rag-chat fallback query (the user's `status = completed` documents, query
order, before its `limit(100)`); `userCompletedDocsDesc` is the
gemini-realtime fallback query (same documents ordered by `created_at`
descending, before its `limit(5)`); `messages cid` is the conversation's
messages in `created_at` ascending order, before the `limit(10)`. -/
structure ChatDb where
  conversations : Nat → Option Conversation
  agents : Nat → Option Agent
  contexts : Nat → Option ContextRow
  userCompletedDocs : List Nat
  userCompletedDocsDesc : List Nat
  messages : Nat → List Message

/-- Resolved knowledge for a rag-chat request. -/
structure Resolved where
  systemPrompt : String
  ragEnabled : Bool
  documentIds : List Nat
deriving DecidableEq, Repr

def defaultSystemPrompt : String := "You are a helpful AI assistant."

/-- Knowledge-source resolution of rag-chat (lines 40-107): agent documents
have priority; context documents are used only when the agent produced none
and RAG is on; remaining-empty sets fall back to the user's completed
documents (capped at 100) when RAG is on. -/
def resolveKnowledge (db : ChatDb) (conversation_id : Option Nat)
    (rag_enabled : Option Bool) : Resolved :=
  let base : Resolved := ⟨defaultSystemPrompt, rag_enabled.getD true, []⟩
  let afterConv : Resolved :=
    match conversation_id with
    | none => base
    | some cid =>
      match db.conversations cid with
      | none => base
      | some conv =>
        let afterAgent : Resolved :=
          match conv.agent_id with
          | none => ⟨defaultSystemPrompt, conv.rag_enabled, []⟩
          | some aid =>
            match db.agents aid with
            | none => ⟨defaultSystemPrompt, conv.rag_enabled, []⟩
            | some a => ⟨a.system_prompt, a.rag_enabled, a.document_ids⟩
        if afterAgent.documentIds.isEmpty && afterAgent.ragEnabled then
          match conv.context_id with
          | none => afterAgent
          | some ctxid =>
            match db.contexts ctxid with
            | none => afterAgent
            | some c =>
              ⟨c.system_prompt.getD afterAgent.systemPrompt,
                afterAgent.ragEnabled, c.document_ids⟩
        else afterAgent
  if afterConv.ragEnabled && afterConv.documentIds.isEmpty then
    let userDocs := db.userCompletedDocs.take 100
    if userDocs.isEmpty then afterConv
    else ⟨afterConv.systemPrompt, afterConv.ragEnabled, userDocs⟩
  else afterConv

/-- External world of one rag-chat invocation. -/
structure RagEnv where
  db : ChatDb
  message : String
  conversation_id : Option Nat
  rag_enabled : Option Bool
  /-- the auth token resolved to a user -/
  userFound : Bool
  /-- the `OPENAI_API_KEY` env var is set -/
  openaiKeyPresent : Bool
  /-- the query-embedding HTTP call returned ok -/
  embedOk : Bool
  /-- the `match_document_chunks` RPC returned an error -/
  rpcError : Bool
  /-- rows the `match_document_chunks` RPC returned -/
  searchChunks : List MatchRow
  /-- the chat-completions HTTP call returned ok -/
  chatOk : Bool
  /-- assistant text of the chat-completions response -/
  chatContent : String

/-- The fixed short-circuit body of rag-chat. -/
def notFoundResponse : String :=
  "Die angefragte Information ist in den bereitgestellten Dokumenten nicht enthalten."

/-- The document-only instruction appended when retrieved chunks exist. -/
def ragOnlyInstruction : String :=
  "\n\nWICHTIG: Beantworte die Frage ausschließlich basierend auf den bereitgestellten Dokumenteninformationen. Wenn die Information nicht in den Dokumenten enthalten ist, antworte mit: \"Die angefragte Information ist in den bereitgestellten Dokumenten nicht enthalten.\""

/-- Observable outcome of one rag-chat invocation. -/
structure ChatResponse where
  httpStatus : Nat
  response : Option String
  rag_used : Option Bool
  error : Option String
  /-- the chat-completions endpoint was called -/
  modelInvoked : Bool
  /-- messages sent to the chat-completions endpoint (empty if not called) -/
  promptMessages : List Message
deriving DecidableEq, Repr

/-- The rag-chat handler (lines 15-251): resolve knowledge, load the first 10
messages of the conversation in ascending `created_at` order, embed the query
and run the similarity search when RAG is on and documents exist (failures
here are swallowed), short-circuit with the fixed not-found body when RAG is
on, documents exist and no chunk matched, otherwise build the prompt as
system layer, history, then the new user message, and call the model. -/
def ragChat (env : RagEnv) : ChatResponse :=
  if env.message = "" then ⟨500, none, none, some "Message is required", false, []⟩
  else if env.userFound = false then ⟨500, none, none, some "Unauthorized", false, []⟩
  else
    let res := resolveKnowledge env.db env.conversation_id env.rag_enabled
    let history : List Message :=
      match env.conversation_id with
      | some cid => (env.db.messages cid).take 10
      | none => []
    let retrieved : List MatchRow :=
      if res.ragEnabled && ! res.documentIds.isEmpty && env.openaiKeyPresent &&
          env.embedOk && ! env.rpcError then
        env.searchChunks
      else []
    let hasRelevantDocuments := ! retrieved.isEmpty
    let relevantContext :=
      if hasRelevantDocuments then
        "\n\nRelevant information from documents:\n" ++
          String.intercalate "\n\n" (retrieved.map (fun c => c.content))
      else ""
    if res.ragEnabled && ! hasRelevantDocuments && ! res.documentIds.isEmpty then
      ⟨200, some notFoundResponse, some true, none, false, []⟩
    else
      let finalSystemPrompt :=
        if res.ragEnabled then
          if hasRelevantDocuments then
            res.systemPrompt ++ relevantContext ++ ragOnlyInstruction
          else res.systemPrompt ++ "\n\nRAG is enabled but no documents are available."
        else res.systemPrompt ++ "\n\nRAG is disabled. Answer based on your general knowledge."
      if env.openaiKeyPresent = false then
        ⟨500, none, none, some "OPENAI_API_KEY is not configured", false, []⟩
      else
        let msgs := ⟨"system", finalSystemPrompt⟩ ::
          (history ++ [⟨"user", env.message⟩])
        if env.chatOk then
          ⟨200, some env.chatContent,
            some (res.ragEnabled && ! decide (relevantContext = "")), none, true, msgs⟩
        else ⟨500, none, none, some "OpenAI API error", true, msgs⟩

/-- External world of one chat-search invocation. -/
structure SearchEnv where
  user_id : Option Nat
  search_query : String
  /-- the user-documents query failed -/
  docsError : Bool
  /-- ids of the user's `status = completed` documents -/
  userDocs : List Nat
  /-- the `OPENAI_API_KEY` env var is set -/
  openaiKeyPresent : Bool
  /-- HTTP status of the embedding call when it failed, `none` when ok -/
  embedFailStatus : Option Nat
  /-- the `match_document_chunks` RPC returned an error -/
  searchError : Bool
  /-- rows the `match_document_chunks` RPC returned -/
  searchChunks : List MatchRow

/-- Observable outcome of one chat-search invocation. -/
structure SearchResponse where
  httpStatus : Nat
  results : List (String × ℚ)
  error : Option String
deriving DecidableEq, Repr

/-- The chat-search handler (Rag_v4): empty document set returns empty
results; a missing key, a failed query embedding, or a failed vector search
each abort with a structured 500 error; otherwise the matched chunks are
returned as `(content, score)` pairs. -/
def chatSearch (env : SearchEnv) : SearchResponse :=
  if env.user_id = none ∨ env.search_query = "" then
    ⟨500, [], some "user_id and search_query are required"⟩
  else if env.docsError then ⟨500, [], some "Failed to fetch user documents"⟩
  else if env.userDocs.isEmpty then ⟨200, [], none⟩
  else if env.openaiKeyPresent = false then
    ⟨500, [], some "OPENAI_API_KEY is not configured"⟩
  else
    match env.embedFailStatus with
    | some status => ⟨500, [], some ("Failed to generate embedding: " ++ toString status)⟩
    | none =>
      if env.searchError then ⟨500, [], some "Vector search failed"⟩
      else ⟨200, env.searchChunks.map (fun c => (c.content, c.similarity)), none⟩

/-- The document-id resolution of gemini-realtime (lines 38-102): run only
when RAG is requested and a user session exists; agent documents and context
documents are both appended to the candidate set; when the set is still empty
fall back to the user's most recent completed documents capped at 5. -/
def geminiDocumentIds (db : ChatDb) (userId : Option Nat) (rag_enabled : Bool)
    (conversation_id : Option Nat) : List Nat :=
  if rag_enabled && userId.isSome then
    let fromConv : List Nat :=
      match conversation_id with
      | none => []
      | some cid =>
        match db.conversations cid with
        | none => []
        | some conv =>
          let agentDocs : List Nat :=
            match conv.agent_id with
            | none => []
            | some aid =>
              match db.agents aid with
              | none => []
              | some a => if a.document_ids.isEmpty then [] else a.document_ids
          let ctxDocs : List Nat :=
            match conv.context_id with
            | none => []
            | some ctxid =>
              match db.contexts ctxid with
              | none => []
              | some c => if c.document_ids.isEmpty then [] else c.document_ids
          agentDocs ++ ctxDocs
    if fromConv.isEmpty then db.userCompletedDocsDesc.take 5 else fromConv
  else []

/-- C6 amended: in the rag-chat resolver an Agent with a non-empty document
set wins exactly (the bound Context's documents are never added and the
effective RAG flag is the Agent's); in the gemini-realtime resolver, however,
a bound Context's non-empty document set is appended after the Agent's. -/
theorem C6_agent_priority_per_resolver (db : ChatDb) (cid : Nat)
    (conv : Conversation) (aid : Nat) (agent : Agent)
    (hconv : db.conversations cid = some conv)
    (haid : conv.agent_id = some aid)
    (hagent : db.agents aid = some agent)
    (hne : agent.document_ids ≠ [])
    (ropt : Option Bool) :
    resolveKnowledge db (some cid) ropt =
      ⟨agent.system_prompt, agent.rag_enabled, agent.document_ids⟩ ∧
    (∀ (uid ctxid : Nat) (c : ContextRow),
      conv.context_id = some ctxid → db.contexts ctxid = some c →
      c.document_ids ≠ [] →
      geminiDocumentIds db (some uid) true (some cid) =
        agent.document_ids ++ c.document_ids) := by
  have hne' : agent.document_ids.isEmpty = false := by
    cases h : agent.document_ids with
    | nil => exact absurd h hne
    | cons a l => rfl
  constructor
  · simp only [resolveKnowledge, hconv, haid, hagent, hne', Bool.false_and,
      Bool.false_eq_true, if_false]
    cases hflag : agent.rag_enabled <;> simp [hflag]
  · intro uid ctxid c hctxid hc hcne
    have hcne' : c.document_ids.isEmpty = false := by
      cases h : c.document_ids with
      | nil => exact absurd h hcne
      | cons a l => rfl
    simp only [geminiDocumentIds, hconv, haid, hagent, hctxid, hc, hne', hcne',
      Bool.false_eq_true, if_false, Option.isSome_some, Bool.and_self, if_pos]
    have : (agent.document_ids ++ c.document_ids).isEmpty = false := by
      cases h : agent.document_ids with
      | nil => exact absurd h hne
      | cons a l => rfl
    simp [this]

/-- Concrete database: the conversation binds agent 1 (documents `[10]`) and
context 2 (documents `[20]`). -/
def dbC6 : ChatDb :=
  ⟨fun cid => if cid = 0 then some ⟨some 1, some 2, true⟩ else none,
    fun aid => if aid = 1 then some ⟨"agent prompt", true, [10]⟩ else none,
    fun ctxid => if ctxid = 2 then some ⟨none, [20]⟩ else none,
    [30], [30], fun _ => []⟩

/-- C6 counterexample: with an agent set `[10]` and a context set `[20]`
bound to the same conversation, the gemini-realtime resolution returns
`[10, 20]` — the context documents are added to the agent's set. -/
theorem C6_counterexample_gemini_appends_context :
    geminiDocumentIds dbC6 (some 0) true (some 0) = [10, 20] ∧
    geminiDocumentIds dbC6 (some 0) true (some 0) ≠ [10] := by
  constructor <;> decide

/-- Witness for the amended C6 at `dbC6`. -/
theorem C6_agent_priority_per_resolver_witness :
    resolveKnowledge dbC6 (some 0) none = ⟨"agent prompt", true, [10]⟩ ∧
    geminiDocumentIds dbC6 (some 0) true (some 0) = [10] ++ [20] :=
  ⟨(C6_agent_priority_per_resolver dbC6 0 ⟨some 1, some 2, true⟩ 1
      ⟨"agent prompt", true, [10]⟩ rfl rfl rfl (by decide) none).1,
    (C6_agent_priority_per_resolver dbC6 0 ⟨some 1, some 2, true⟩ 1
      ⟨"agent prompt", true, [10]⟩ rfl rfl rfl (by decide) none).2
      0 2 ⟨none, [20]⟩ rfl rfl (by decide)⟩

theorem isEmpty_eq_false_of_ne_nil {l : List α} (h : l ≠ []) : l.isEmpty = false := by
  cases l with
  | nil => exact absurd rfl h
  | cons a as => rfl

/-- C8: RAG on, documents resolved, the query embedded, and zero chunks
returned by the similarity search ⇒ rag-chat answers 200 with exactly the
fixed not-found body and never calls the generative model. -/
theorem C8_zero_chunks_short_circuit (env : RagEnv)
    (hmsg : env.message ≠ "") (huser : env.userFound = true)
    (hrag : (resolveKnowledge env.db env.conversation_id env.rag_enabled).ragEnabled = true)
    (hdocs : (resolveKnowledge env.db env.conversation_id env.rag_enabled).documentIds ≠ [])
    (hkey : env.openaiKeyPresent = true) (hembed : env.embedOk = true)
    (hrpc : env.rpcError = false) (hchunks : env.searchChunks = []) :
    ragChat env = ⟨200, some notFoundResponse, some true, none, false, []⟩ := by
  have hne := isEmpty_eq_false_of_ne_nil hdocs
  simp [ragChat, hmsg, huser, hrag, hne, hkey, hembed, hrpc, hchunks]

/-- Concrete rag-chat invocation: no conversation, fallback documents `[30]`,
embedding ok, zero chunks matched. -/
def envC8 : RagEnv :=
  ⟨dbC6, "hi", none, none, true, true, true, false, [], true, "answer"⟩

/-- Witness for C8 at `envC8`. -/
theorem C8_zero_chunks_short_circuit_witness :
    (resolveKnowledge envC8.db envC8.conversation_id envC8.rag_enabled).ragEnabled = true ∧
    (resolveKnowledge envC8.db envC8.conversation_id envC8.rag_enabled).documentIds = [30] ∧
    ragChat envC8 = ⟨200, some notFoundResponse, some true, none, false, []⟩ :=
  ⟨by decide, by decide,
    C8_zero_chunks_short_circuit envC8 (by decide) rfl (by decide) (by decide)
      rfl rfl rfl rfl⟩

/-- Concrete rag-chat invocation identical to `envC8` except that the
query-embedding HTTP call fails. -/
def envC7 : RagEnv :=
  ⟨dbC6, "hi", none, none, true, true, false, false,
    [⟨1, 30, "chunk", 1⟩], true, "answer"⟩

/-- C7 counterexample: when the query embedding fails, rag-chat does not
surface an error — it answers 200 with the fixed not-found body as if the
search had found nothing. -/
theorem C7_counterexample_embedding_failure_swallowed :
    envC7.embedOk = false ∧
    ragChat envC7 = ⟨200, some notFoundResponse, some true, none, false, []⟩ ∧
    (ragChat envC7).error = none ∧ (ragChat envC7).httpStatus = 200 := by
  refine ⟨rfl, by decide, by decide, by decide⟩

/-- C7 amended: a failed query embedding aborts chat-search with a
structured 500 error, but rag-chat swallows it: with documents resolved the
request returns the fixed not-found success body and the model is never
invoked. -/
theorem C7_embedding_failure_per_handler :
    (∀ (env : SearchEnv) (uid status : Nat),
      env.user_id = some uid → env.search_query ≠ "" →
      env.docsError = false → env.userDocs ≠ [] →
      env.openaiKeyPresent = true → env.embedFailStatus = some status →
      chatSearch env =
        ⟨500, [], some ("Failed to generate embedding: " ++ toString status)⟩) ∧
    (∀ env : RagEnv,
      env.message ≠ "" → env.userFound = true →
      (resolveKnowledge env.db env.conversation_id env.rag_enabled).ragEnabled = true →
      (resolveKnowledge env.db env.conversation_id env.rag_enabled).documentIds ≠ [] →
      env.openaiKeyPresent = true → env.embedOk = false →
      ragChat env = ⟨200, some notFoundResponse, some true, none, false, []⟩) := by
  constructor
  · intro env uid status huid hq hderr hdocs hkey hfail
    have hne := isEmpty_eq_false_of_ne_nil hdocs
    simp [chatSearch, huid, hq, hderr, hne, hkey, hfail]
  · intro env hmsg huser hrag hdocs hkey hembed
    have hne := isEmpty_eq_false_of_ne_nil hdocs
    simp [ragChat, hmsg, huser, hrag, hne, hkey, hembed]

/-- Concrete chat-search invocation whose embedding call fails with 500. -/
def envC7s : SearchEnv :=
  ⟨some 4, "query", false, [30], true, some 500, false, []⟩

/-- Witness for the amended C7 at `envC7s` and `envC7`. -/
theorem C7_embedding_failure_per_handler_witness :
    chatSearch envC7s = ⟨500, [], some "Failed to generate embedding: 500"⟩ ∧
    ragChat envC7 = ⟨200, some notFoundResponse, some true, none, false, []⟩ :=
  ⟨by
    have h := C7_embedding_failure_per_handler.1 envC7s 4 500 rfl (by decide)
      rfl (by decide) rfl rfl
    simpa using h,
    C7_embedding_failure_per_handler.2 envC7 (by decide) rfl (by decide)
      (by decide) rfl rfl⟩

/-- Concrete database: conversation 0 has RAG off, no agent, no context, and
eleven messages `m0` … `m10`. -/
def dbC9 : ChatDb :=
  ⟨fun cid => if cid = 0 then some ⟨none, none, false⟩ else none,
    fun _ => none, fun _ => none, [], [],
    fun cid =>
      if cid = 0 then
        [⟨"user", "m0"⟩, ⟨"assistant", "m1"⟩, ⟨"user", "m2"⟩, ⟨"assistant", "m3"⟩,
          ⟨"user", "m4"⟩, ⟨"assistant", "m5"⟩, ⟨"user", "m6"⟩, ⟨"assistant", "m7"⟩,
          ⟨"user", "m8"⟩, ⟨"assistant", "m9"⟩, ⟨"user", "m10"⟩]
      else []⟩

/-- Concrete rag-chat invocation on the eleven-message conversation. -/
def envC9 : RagEnv :=
  ⟨dbC9, "hello", some 0, none, true, true, true, false, [], true, "answer"⟩

/-- C9 counterexample: on a conversation holding 11 messages, the prompt
holds the FIRST 10 messages (`m0` … `m9`); `m10`, which belongs to the last
10, is absent — the history is `order(created_at asc).limit(10)`, not the
last 10 messages. -/
theorem C9_counterexample_first_not_last_ten :
    (ragChat envC9).promptMessages.map (fun m => m.content) =
      [defaultSystemPrompt ++ "\n\nRAG is disabled. Answer based on your general knowledge.",
        "m0", "m1", "m2", "m3", "m4", "m5", "m6", "m7", "m8", "m9", "hello"] ∧
    "m10" ∉ (ragChat envC9).promptMessages.map (fun m => m.content) ∧
    (dbC9.messages 0).length = 11 ∧
    "m10" ∈ ((dbC9.messages 0).drop 1).map (fun m => m.content) := by
  refine ⟨by decide, by decide, by decide, by decide⟩

/-- C9 amended: whenever rag-chat calls the generative model, the prompt is
the system layer, then the first 10 messages of the conversation in
chronological order, then the new user message — stated for the three
model-invoking paths (RAG off; RAG on with no documents; RAG on with
matching chunks). -/
theorem C9_history_first_ten_between_system_and_user (env : RagEnv) (cid : Nat)
    (hmsg : env.message ≠ "") (huser : env.userFound = true)
    (hcid : env.conversation_id = some cid)
    (hkey : env.openaiKeyPresent = true) :
    ((resolveKnowledge env.db env.conversation_id env.rag_enabled).ragEnabled = false →
      (ragChat env).modelInvoked = true ∧
      (ragChat env).promptMessages =
        ⟨"system", (resolveKnowledge env.db env.conversation_id env.rag_enabled).systemPrompt ++
            "\n\nRAG is disabled. Answer based on your general knowledge."⟩ ::
          ((env.db.messages cid).take 10 ++ [⟨"user", env.message⟩])) ∧
    ((resolveKnowledge env.db env.conversation_id env.rag_enabled).ragEnabled = true →
      (resolveKnowledge env.db env.conversation_id env.rag_enabled).documentIds = [] →
      (ragChat env).modelInvoked = true ∧
      (ragChat env).promptMessages =
        ⟨"system", (resolveKnowledge env.db env.conversation_id env.rag_enabled).systemPrompt ++
            "\n\nRAG is enabled but no documents are available."⟩ ::
          ((env.db.messages cid).take 10 ++ [⟨"user", env.message⟩])) ∧
    ((resolveKnowledge env.db env.conversation_id env.rag_enabled).ragEnabled = true →
      (resolveKnowledge env.db env.conversation_id env.rag_enabled).documentIds ≠ [] →
      env.embedOk = true → env.rpcError = false → env.searchChunks ≠ [] →
      (ragChat env).modelInvoked = true ∧
      (ragChat env).promptMessages =
        ⟨"system", (resolveKnowledge env.db env.conversation_id env.rag_enabled).systemPrompt ++
            ("\n\nRelevant information from documents:\n" ++
              String.intercalate "\n\n" (env.searchChunks.map (fun c => c.content))) ++
            ragOnlyInstruction⟩ ::
          ((env.db.messages cid).take 10 ++ [⟨"user", env.message⟩])) := by
  refine ⟨?_, ?_, ?_⟩
  · intro hr
    rw [hcid] at hr
    by_cases hc : env.chatOk <;>
      constructor <;> simp [ragChat, hmsg, huser, hcid, hr, hkey, hc]
  · intro hr hdocs
    rw [hcid] at hr hdocs
    by_cases hc : env.chatOk <;>
      constructor <;> simp [ragChat, hmsg, huser, hcid, hr, hdocs, hkey, hc]
  · intro hr hdocs hembed hrpc hchunks
    rw [hcid] at hr hdocs
    have hne := isEmpty_eq_false_of_ne_nil hdocs
    have hcne := isEmpty_eq_false_of_ne_nil hchunks
    by_cases hc : env.chatOk <;>
      constructor <;>
        simp [ragChat, hmsg, huser, hcid, hr, hne, hcne, hembed, hrpc, hkey, hc]

/-- Witness for the amended C9 at `envC9`. -/
theorem C9_history_first_ten_between_system_and_user_witness :
    (ragChat envC9).modelInvoked = true ∧
    (ragChat envC9).promptMessages =
      ⟨"system", (resolveKnowledge envC9.db envC9.conversation_id envC9.rag_enabled).systemPrompt ++
          "\n\nRAG is disabled. Answer based on your general knowledge."⟩ ::
        ((envC9.db.messages 0).take 10 ++ [⟨"user", envC9.message⟩]) :=
  (C9_history_first_ten_between_system_and_user envC9 0 (by decide) rfl rfl rfl).1
    (by decide)

end Verbotic
